import Mathlib

/-!
Verification of the service skeleton in
`src/assets/service_skeleton_test/main.cpp`.

The program is a minimal Windows-style service: a global
`SERVICE_STATUS` record and a status handle, a control callback
`ServiceCtrlHandler` that reacts only to the Stop control code, an entry
routine `ServiceMain` that registers the callback, initialises the
record to Running, reports it, and idles in a loop until the record's
current state is no longer Running, and a `main` that starts the
dispatcher and returns 0.

Embedding choices:
* The two globals (`serviceStatus`, `serviceStatusHandle`) together with
  the observable trace of `SetServiceStatus` calls form the explicit
  program state `ProgState`.
* `SetServiceStatus` is modelled by appending the pair
  (handle, status) to the trace; the handle is `Option Nat`, with
  `none` standing for a NULL handle from a failed registration.
* Asynchronous signal delivery is modelled by a schedule: a list of
  control codes delivered between the registration call and the
  initialisation (`early`), and one list of control codes per sleep
  interval of the run loop (`sched`).  The loop is run over the finite
  schedule and returns `none` when the schedule is exhausted while the
  state is still Running (the real loop would keep spinning).
-/

/-- Windows control code SERVICE_CONTROL_STOP (0x00000001). -/
def SERVICE_CONTROL_STOP : Nat := 1

/-- Windows state constant SERVICE_STOPPED (0x00000001). -/
def SERVICE_STOPPED : Nat := 1

/-- Windows state constant SERVICE_RUNNING (0x00000004). -/
def SERVICE_RUNNING : Nat := 4

/-- Windows type constant SERVICE_WIN32_OWN_PROCESS (0x00000010). -/
def SERVICE_WIN32_OWN_PROCESS : Nat := 16

/-- Windows accepted-controls bit SERVICE_ACCEPT_STOP (0x00000001). -/
def SERVICE_ACCEPT_STOP : Nat := 1

/-- The fields of the global `SERVICE_STATUS serviceStatus` that the
program touches. -/
structure SERVICE_STATUS where
  dwServiceType : Nat
  dwCurrentState : Nat
  dwControlsAccepted : Nat
deriving DecidableEq, Repr

/-- A service status handle; `none` models a NULL handle (failed
registration). -/
abbrev Handle := Option Nat

/-- The program's mutable state: the two globals plus the observable
trace of `SetServiceStatus` calls (each call records the handle and the
status record passed to it). -/
structure ProgState where
  serviceStatusHandle : Handle
  serviceStatus : SERVICE_STATUS
  reports : List (Handle × SERVICE_STATUS)
deriving DecidableEq, Repr

/-- `SetServiceStatus(serviceStatusHandle, &serviceStatus)`: reports the
current record to the service manager; modelled as appending the
(handle, record) pair to the trace. -/
def SetServiceStatus (st : ProgState) : ProgState :=
  { st with reports := st.reports ++ [(st.serviceStatusHandle, st.serviceStatus)] }

/-- `ServiceCtrlHandler(DWORD ctrlCode)`: if the code is
SERVICE_CONTROL_STOP, set `dwCurrentState` to SERVICE_STOPPED and call
`SetServiceStatus`; otherwise do nothing. -/
def ServiceCtrlHandler (ctrlCode : Nat) (st : ProgState) : ProgState :=
  if ctrlCode = SERVICE_CONTROL_STOP then
    SetServiceStatus
      { st with serviceStatus := { st.serviceStatus with dwCurrentState := SERVICE_STOPPED } }
  else
    st

/-- The `RegisterServiceCtrlHandler` call of `ServiceMain`: stores the
returned handle (possibly NULL) into the global; the return value is
not checked. -/
def serviceMainRegister (regResult : Handle) (st : ProgState) : ProgState :=
  { st with serviceStatusHandle := regResult }

/-- The initialisation block of `ServiceMain`: assigns
`dwServiceType`, `dwCurrentState` and `dwControlsAccepted` of the
global record and then calls `SetServiceStatus`. -/
def serviceMainInit (st : ProgState) : ProgState :=
  SetServiceStatus
    { st with
        serviceStatus :=
          { dwServiceType := SERVICE_WIN32_OWN_PROCESS
            dwCurrentState := SERVICE_RUNNING
            dwControlsAccepted := SERVICE_ACCEPT_STOP } }

/-- Deliver a list of control codes to the callback, in order. -/
def deliverSignals (codes : List Nat) (st : ProgState) : ProgState :=
  codes.foldl (fun s c => ServiceCtrlHandler c s) st

/-- The main service loop
`while (serviceStatus.dwCurrentState == SERVICE_RUNNING) Sleep(1000);`
run over a finite schedule: `sched` lists, for each sleep interval, the
control codes delivered asynchronously during that interval.  Returns
`some` of the final state when the loop exits within the schedule, and
`none` when the schedule is exhausted while still Running. -/
def runLoop (sched : List (List Nat)) (st : ProgState) : Option ProgState :=
  match sched with
  | [] =>
      if st.serviceStatus.dwCurrentState = SERVICE_RUNNING then none else some st
  | codes :: rest =>
      if st.serviceStatus.dwCurrentState = SERVICE_RUNNING then
        runLoop rest (deliverSignals codes st)
      else
        some st

/-- `ServiceMain`: register the handler (storing `regResult`), absorb
the control codes `early` delivered before the initialisation runs,
initialise and report the record, then enter the run loop. -/
def ServiceMain (regResult : Handle) (early : List Nat) (sched : List (List Nat))
    (st : ProgState) : Option ProgState :=
  runLoop sched (serviceMainInit (deliverSignals early (serviceMainRegister regResult st)))

/-- `main`: builds the service table, calls
`StartServiceCtrlDispatcher` (which, when the process runs under the
service manager, drives `ServiceMain`; `dispatchOk` models that
outcome), and returns 0 unconditionally. -/
def mainEntry (dispatchOk : Bool) (regResult : Handle) (early : List Nat)
    (sched : List (List Nat)) (st : ProgState) : Nat :=
  let _exitState : Option ProgState :=
    if dispatchOk then ServiceMain regResult early sched st else none
  0

/-- A concrete starting state used by the witnesses. -/
def st0 : ProgState :=
  { serviceStatusHandle := some 7
    serviceStatus :=
      { dwServiceType := 16, dwCurrentState := 4, dwControlsAccepted := 1 }
    reports := [] }

/- ### Helper lemmas -/

/-- After the callback handles a Stop code the record's state is
SERVICE_STOPPED. -/
theorem serviceCtrlHandler_stop_state (st : ProgState) :
    (ServiceCtrlHandler SERVICE_CONTROL_STOP st).serviceStatus.dwCurrentState
      = SERVICE_STOPPED := by
  simp [ServiceCtrlHandler, SetServiceStatus]

/-- A state whose record is Stopped makes the loop guard false. -/
theorem stopped_ne_running : SERVICE_STOPPED ≠ SERVICE_RUNNING := by
  decide

/- ### Claims -/

/-- Claim C1: once a Stop control code has been delivered to the
control callback (so `dwCurrentState` is SERVICE_STOPPED), the run
loop's next check of the state observes Stopped and the loop exits at
that check, for every remaining schedule, returning the state produced
by the callback unchanged. -/
theorem stop_then_loop_exits (st : ProgState) (c : Nat)
    (h : c = SERVICE_CONTROL_STOP) (sched : List (List Nat)) :
    (ServiceCtrlHandler c st).serviceStatus.dwCurrentState = SERVICE_STOPPED ∧
    runLoop sched (ServiceCtrlHandler c st) = some (ServiceCtrlHandler c st) := by
  subst h
  refine ⟨serviceCtrlHandler_stop_state st, ?_⟩
  cases sched with
  | nil =>
      simp [runLoop, serviceCtrlHandler_stop_state st, SERVICE_STOPPED, SERVICE_RUNNING,
        ServiceCtrlHandler, SetServiceStatus]
  | cons codes rest =>
      simp [runLoop, serviceCtrlHandler_stop_state st, SERVICE_STOPPED, SERVICE_RUNNING,
        ServiceCtrlHandler, SetServiceStatus]

/-- Witness for C1 at a concrete state and schedule. -/
theorem stop_then_loop_exits_witness :
    (ServiceCtrlHandler 1 st0).serviceStatus.dwCurrentState = SERVICE_STOPPED ∧
    runLoop [[3], [1]] (ServiceCtrlHandler 1 st0) = some (ServiceCtrlHandler 1 st0) :=
  stop_then_loop_exits st0 1 rfl [[3], [1]]

/-- Claim C2: on a Stop control code the callback sets
`dwCurrentState` to SERVICE_STOPPED and issues exactly one status
report carrying the updated record, for every prior state. -/
theorem stop_sets_stopped_and_reports (st : ProgState) :
    (ServiceCtrlHandler SERVICE_CONTROL_STOP st).serviceStatus.dwCurrentState
        = SERVICE_STOPPED ∧
    (ServiceCtrlHandler SERVICE_CONTROL_STOP st).reports
        = st.reports
          ++ [(st.serviceStatusHandle,
               (ServiceCtrlHandler SERVICE_CONTROL_STOP st).serviceStatus)] := by
  constructor
  · exact serviceCtrlHandler_stop_state st
  · simp [ServiceCtrlHandler, SetServiceStatus]

/-- Claim C3: immediately after the initialisation block of
`ServiceMain`, the record's state is SERVICE_RUNNING, its accepted
controls include Stop, exactly one report carrying the Running record
has been issued, and `ServiceMain` enters the run loop with exactly
that initialised state. -/
theorem init_announces_running (st : ProgState) :
    (serviceMainInit st).serviceStatus.dwCurrentState = SERVICE_RUNNING ∧
    Nat.land (serviceMainInit st).serviceStatus.dwControlsAccepted SERVICE_ACCEPT_STOP
        = SERVICE_ACCEPT_STOP ∧
    (serviceMainInit st).reports
        = st.reports
          ++ [(st.serviceStatusHandle, (serviceMainInit st).serviceStatus)] ∧
    ∀ (reg : Handle) (early : List Nat) (sched : List (List Nat)),
      ServiceMain reg early sched st
        = runLoop sched (serviceMainInit (deliverSignals early (serviceMainRegister reg st))) := by
  refine ⟨rfl,
    (by decide : Nat.land SERVICE_ACCEPT_STOP SERVICE_ACCEPT_STOP = SERVICE_ACCEPT_STOP),
    ?_, fun reg early sched => rfl⟩
  simp [serviceMainInit, SetServiceStatus]

/-- Claim C4: a control code other than Stop leaves the entire program
state unchanged: no field is written and no report is issued. -/
theorem nonstop_is_noop (c : Nat) (st : ProgState)
    (h : c ≠ SERVICE_CONTROL_STOP) :
    ServiceCtrlHandler c st = st := by
  simp [ServiceCtrlHandler, h]

/-- Witness for C4 at a concrete control code and state. -/
theorem nonstop_is_noop_witness : ServiceCtrlHandler 2 st0 = st0 :=
  nonstop_is_noop 2 st0 (by decide)

/-- Claim C5: delivering Stop twice in succession leaves the status
record identical to delivering it once, and the state is still
SERVICE_STOPPED; the second invocation is a total function application,
so it completes. -/
theorem stop_idempotent_on_record (st : ProgState) :
    (ServiceCtrlHandler SERVICE_CONTROL_STOP
        (ServiceCtrlHandler SERVICE_CONTROL_STOP st)).serviceStatus
      = (ServiceCtrlHandler SERVICE_CONTROL_STOP st).serviceStatus ∧
    (ServiceCtrlHandler SERVICE_CONTROL_STOP
        (ServiceCtrlHandler SERVICE_CONTROL_STOP st)).serviceStatus.dwCurrentState
      = SERVICE_STOPPED := by
  obtain ⟨hdl, ⟨t, s, ca⟩, rep⟩ := st
  constructor
  · simp [ServiceCtrlHandler, SetServiceStatus]
  · simp [ServiceCtrlHandler, SetServiceStatus]

/-- Claim C6: for every execution of the entry point — dispatcher
success or failure, every registration outcome, every signal
schedule — `main` returns exit code 0. -/
theorem main_returns_zero (dispatchOk : Bool) (reg : Handle)
    (early : List Nat) (sched : List (List Nat)) (st : ProgState) :
    mainEntry dispatchOk reg early sched st = 0 := rfl

/-- Claim C7: the registration result is never checked: for every
outcome `reg`, including the NULL handle `none`, `ServiceMain`
unconditionally initialises the record to Running, issues a status
report (carrying that very handle), and enters the run loop on the
initialised state. -/
theorem registration_unchecked (reg : Handle) (sched : List (List Nat))
    (st : ProgState) :
    ServiceMain reg [] sched st
        = runLoop sched (serviceMainInit (serviceMainRegister reg st)) ∧
    (serviceMainInit (serviceMainRegister reg st)).serviceStatus.dwCurrentState
        = SERVICE_RUNNING ∧
    (serviceMainInit (serviceMainRegister reg st)).reports
        = st.reports
          ++ [(reg, (serviceMainInit (serviceMainRegister reg st)).serviceStatus)] := by
  refine ⟨rfl, rfl, ?_⟩
  simp [serviceMainInit, serviceMainRegister, SetServiceStatus]

/-- Claim C8: once the loop observes a Stopped record the loop
terminates with the state unchanged (the loop never writes the record),
and no later callback invocation changes the record's value: a later
Stop rewrites the same Stopped value and any other code is a no-op. -/
theorem stopped_is_terminal (st : ProgState)
    (h : st.serviceStatus.dwCurrentState = SERVICE_STOPPED) :
    (∀ sched : List (List Nat), runLoop sched st = some st) ∧
    (∀ c : Nat, (ServiceCtrlHandler c st).serviceStatus = st.serviceStatus) := by
  obtain ⟨hdl, ⟨t, s, ca⟩, rep⟩ := st
  simp only [SERVICE_STOPPED] at h
  subst h
  constructor
  · intro sched
    cases sched with
    | nil => simp [runLoop, SERVICE_RUNNING]
    | cons codes rest => simp [runLoop, SERVICE_RUNNING]
  · intro c
    by_cases hc : c = SERVICE_CONTROL_STOP
    · simp [ServiceCtrlHandler, SetServiceStatus, hc, SERVICE_STOPPED]
    · simp [ServiceCtrlHandler, hc]

/-- Witness for C8 at a concrete already-stopped state. -/
theorem stopped_is_terminal_witness :
    (∀ sched : List (List Nat),
        runLoop sched (ServiceCtrlHandler 1 st0) = some (ServiceCtrlHandler 1 st0)) ∧
    (∀ c : Nat,
        (ServiceCtrlHandler c (ServiceCtrlHandler 1 st0)).serviceStatus
          = (ServiceCtrlHandler 1 st0).serviceStatus) :=
  stopped_is_terminal (ServiceCtrlHandler 1 st0) rfl

/-- Claim C9: for every control code the callback leaves
`dwServiceType`, `dwControlsAccepted` and the handle unchanged; the
only field it may write is `dwCurrentState`, and the only value it ever
writes there is SERVICE_STOPPED. -/
theorem handler_frame (c : Nat) (st : ProgState) :
    (ServiceCtrlHandler c st).serviceStatus.dwServiceType
        = st.serviceStatus.dwServiceType ∧
    (ServiceCtrlHandler c st).serviceStatus.dwControlsAccepted
        = st.serviceStatus.dwControlsAccepted ∧
    (ServiceCtrlHandler c st).serviceStatusHandle = st.serviceStatusHandle ∧
    ((ServiceCtrlHandler c st).serviceStatus.dwCurrentState
        = st.serviceStatus.dwCurrentState ∨
     (ServiceCtrlHandler c st).serviceStatus.dwCurrentState = SERVICE_STOPPED) := by
  by_cases hc : c = SERVICE_CONTROL_STOP
  · subst hc
    exact ⟨rfl, rfl, rfl, Or.inr (serviceCtrlHandler_stop_state st)⟩
  · simp [ServiceCtrlHandler, hc]

/-- Claim C10: the initialisation of `ServiceMain` sets the state to
SERVICE_RUNNING regardless of the record's prior value, so a Stop
processed between registration and initialisation is overwritten: its
Stopped write becomes Running, `ServiceMain` enters the run loop with
that Running state, and the loop keeps spinning (with no further
signals it does not exit). -/
theorem early_stop_overwritten (reg : Handle) (st : ProgState)
    (sched : List (List Nat)) :
    (deliverSignals [SERVICE_CONTROL_STOP]
        (serviceMainRegister reg st)).serviceStatus.dwCurrentState
      = SERVICE_STOPPED ∧
    (serviceMainInit st).serviceStatus.dwCurrentState = SERVICE_RUNNING ∧
    ServiceMain reg [SERVICE_CONTROL_STOP] sched st
      = runLoop sched
          (serviceMainInit
            (deliverSignals [SERVICE_CONTROL_STOP] (serviceMainRegister reg st))) ∧
    runLoop []
        (serviceMainInit
          (deliverSignals [SERVICE_CONTROL_STOP] (serviceMainRegister reg st)))
      = none := by
  refine ⟨?_, rfl, rfl, rfl⟩
  simp [deliverSignals, serviceMainRegister]
  exact serviceCtrlHandler_stop_state _
